import Mathlib

/-!
Shallow embedding of the provider/router/session core of the helpi
message-routing gateway (Go sources under internal/llm, internal/session
and the llm factory).  Pure data and control flow are translated directly;
I/O boundaries are made explicit parameters:

* the process environment (`os.Getenv`) becomes a function `String → String`
  (an unset variable reads as `""`, as in Go);
* one blocking network round-trip becomes an oracle
  `request → Except String response`;
* the per-user session directory becomes a map `Int → Option (List Message)`
  (a file's bytes are represented by the message list they decode to, since
  `json.Marshal`/`json.Unmarshal` round-trip the `[]llm.Message` slice, and
  `os.MkdirAll` in `NewManager` is assumed to succeed).
-/

namespace Helpi

/-- `llm.Message` (internal/llm/provider.go companion type): role-tagged text. -/
structure Message where
  role : String
  content : String
deriving DecidableEq, Repr

/-! ## OpenAI-compatible family (openai, ollama, openrouter, opencode) -/

/-- One native chat turn of the OpenAI-compatible wire shape
(`openai.ChatCompletionMessageParamUnion` restricted to the
system/user/assistant text constructors actually used). -/
structure ChatTurn where
  role : String
  content : String
deriving DecidableEq, Repr

/-- `openai.ChatCompletionNewParams`: model name plus the translated turns. -/
structure ChatRequest where
  model : String
  messages : List ChatTurn
deriving DecidableEq, Repr

/-- The `Message` field of one returned choice. -/
structure ChoiceMessage where
  content : String
deriving DecidableEq, Repr

/-- One element of `resp.Choices`. -/
structure Choice where
  message : ChoiceMessage
deriving DecidableEq, Repr

/-- The chat-completion response, reduced to the `Choices` slice the code reads. -/
structure ChatResponse where
  choices : List Choice
deriving DecidableEq, Repr

/-- The per-message `switch msg.Role` of the four OpenAI-compatible
`SendMessage` loops (identical text in openai.go, ollama.go, openrouter.go,
opencode.go): the `default` arm builds a user turn. -/
def openAIFamilyTurnOf (m : Message) : ChatTurn :=
  if m.role = "system" then { role := "system", content := m.content }
  else if m.role = "user" then { role := "user", content := m.content }
  else if m.role = "assistant" then { role := "assistant", content := m.content }
  else { role := "user", content := m.content }

/-- The `make`+index loop over `messages`: one native turn per input message. -/
def openAIFamilyTranslate (messages : List Message) : List ChatTurn :=
  messages.map openAIFamilyTurnOf

/-- The shared body of the four OpenAI-compatible `SendMessage` methods,
parameterised by the provider name, its enabled flag and model, and the
network oracle standing for `client.Chat.Completions.New`. -/
def openAIFamilySendMessage (name : String) (enabled : Bool) (model : String)
    (net : ChatRequest → Except String ChatResponse)
    (messages : List Message) : Except String String :=
  if !enabled then Except.error (name ++ ": provider not enabled")
  else
    match net { model := model, messages := openAIFamilyTranslate messages } with
    | Except.error e => Except.error (name ++ ": " ++ e)
    | Except.ok resp =>
      match resp.choices with
      | [] => Except.ok ""
      | c :: _ => Except.ok c.message.content

/-! ## Configuration (internal/config) and the five provider constructors -/

/-- `config.ProviderConfig`: the two fields the llm package reads. -/
structure ProviderConfig where
  enabled : Bool
  defaultModel : String
deriving DecidableEq, Repr

/-- `config.ProvidersConfig`. -/
structure ProvidersConfig where
  openAI : ProviderConfig
  anthropic : ProviderConfig
  ollama : ProviderConfig
  openRouter : ProviderConfig
  openCode : ProviderConfig
deriving DecidableEq, Repr

/-- `config.Config`, reduced to the providers section the llm package reads. -/
structure Config where
  providers : ProvidersConfig
deriving DecidableEq, Repr

/-- `openAIProvider` (part of the struct state: the client handle is omitted,
its construction carries no data the methods later read beyond these fields). -/
structure OpenAIProvider where
  model : String
  enabled : Bool
deriving DecidableEq, Repr

/-- `NewOpenAIProvider`: enabled iff the flag is set and `OPENAI_API_KEY`
is non-empty in the environment. -/
def NewOpenAIProvider (env : String → String) (cfg : Config) : OpenAIProvider :=
  { model := cfg.providers.openAI.defaultModel,
    enabled := cfg.providers.openAI.enabled && (env "OPENAI_API_KEY" != "") }

def OpenAIProvider.Name (_ : OpenAIProvider) : String := "openai"

def OpenAIProvider.IsEnabled (p : OpenAIProvider) : Bool := p.enabled

/-- `openAIProvider.SendMessage`. -/
def openAISendMessage (p : OpenAIProvider)
    (net : ChatRequest → Except String ChatResponse)
    (messages : List Message) : Except String String :=
  openAIFamilySendMessage "openai" p.enabled p.model net messages

/-- `ollamaProvider`. -/
structure OllamaProvider where
  model : String
  baseURL : String
  enabled : Bool
deriving DecidableEq, Repr

/-- `NewOllamaProvider`: enabled is the configured flag alone (no credential);
the base URL falls back to the local loopback default, and note the source
reuses `DefaultModel` for both the URL override and the model name. -/
def NewOllamaProvider (cfg : Config) : OllamaProvider :=
  { model := cfg.providers.ollama.defaultModel,
    baseURL := if cfg.providers.ollama.defaultModel = "" then "http://localhost:11434/v1"
               else cfg.providers.ollama.defaultModel,
    enabled := cfg.providers.ollama.enabled }

def OllamaProvider.Name (_ : OllamaProvider) : String := "ollama"

def OllamaProvider.IsEnabled (p : OllamaProvider) : Bool := p.enabled

/-- `ollamaProvider.SendMessage` (same loop and extraction as openai.go). -/
def ollamaSendMessage (p : OllamaProvider)
    (net : ChatRequest → Except String ChatResponse)
    (messages : List Message) : Except String String :=
  openAIFamilySendMessage "ollama" p.enabled p.model net messages

/-- `openRouterProvider`. -/
structure OpenRouterProvider where
  model : String
  enabled : Bool
deriving DecidableEq, Repr

/-- `NewOpenRouterProvider`: flag and `OPENROUTER_API_KEY`. -/
def NewOpenRouterProvider (env : String → String) (cfg : Config) : OpenRouterProvider :=
  { model := cfg.providers.openRouter.defaultModel,
    enabled := cfg.providers.openRouter.enabled && (env "OPENROUTER_API_KEY" != "") }

def OpenRouterProvider.Name (_ : OpenRouterProvider) : String := "openrouter"

def OpenRouterProvider.IsEnabled (p : OpenRouterProvider) : Bool := p.enabled

/-- `openRouterProvider.SendMessage`. -/
def openRouterSendMessage (p : OpenRouterProvider)
    (net : ChatRequest → Except String ChatResponse)
    (messages : List Message) : Except String String :=
  openAIFamilySendMessage "openrouter" p.enabled p.model net messages

/-- `openCodeProvider`. -/
structure OpenCodeProvider where
  model : String
  enabled : Bool
deriving DecidableEq, Repr

/-- `NewOpenCodeProvider`: flag and `OPENCODE_API_KEY`. -/
def NewOpenCodeProvider (env : String → String) (cfg : Config) : OpenCodeProvider :=
  { model := cfg.providers.openCode.defaultModel,
    enabled := cfg.providers.openCode.enabled && (env "OPENCODE_API_KEY" != "") }

def OpenCodeProvider.Name (_ : OpenCodeProvider) : String := "opencode"

def OpenCodeProvider.IsEnabled (p : OpenCodeProvider) : Bool := p.enabled

/-- `openCodeProvider.SendMessage`. -/
def openCodeSendMessage (p : OpenCodeProvider)
    (net : ChatRequest → Except String ChatResponse)
    (messages : List Message) : Except String String :=
  openAIFamilySendMessage "opencode" p.enabled p.model net messages

/-! ## Anthropic-style variant (anthropic.go) -/

/-- One `anthropic.MessageParam` turn (role plus its single text block). -/
structure AnthropicTurn where
  role : String
  content : String
deriving DecidableEq, Repr

/-- One response content block, via its `AsText()` projection. -/
structure AnthropicTextBlock where
  text : String
deriving DecidableEq, Repr

/-- The Anthropic response, reduced to the `Content` blocks the code reads. -/
structure AnthropicResponse where
  content : List AnthropicTextBlock
deriving DecidableEq, Repr

/-- `anthropic.MessageNewParams` as assembled by `SendMessage`: `System` is
set only when the collected system text is non-empty. -/
structure AnthropicRequest where
  model : String
  maxTokens : Nat
  system : Option String
  messages : List AnthropicTurn
deriving DecidableEq, Repr

/-- The non-system arm of the anthropic translation loop: role `"assistant"`
keeps its role, every other role becomes `"user"`. -/
def anthropicTurnOf (m : Message) : AnthropicTurn :=
  { role := if m.role = "assistant" then "assistant" else "user",
    content := m.content }

/-- The `for _, msg := range messages` loop of `anthropicProvider.SendMessage`:
the accumulator carries `(systemMsg, conversationMessages)`; a system-role
message overwrites `systemMsg` and is skipped from the turn list. -/
def anthropicLoop : String × List AnthropicTurn → List Message → String × List AnthropicTurn
  | acc, [] => acc
  | acc, msg :: rest =>
    if msg.role = "system" then anthropicLoop (msg.content, acc.2) rest
    else anthropicLoop (acc.1, acc.2 ++ [anthropicTurnOf msg]) rest

/-- The request `anthropicProvider.SendMessage` hands to
`client.Messages.New`: fixed `MaxTokens` 1024, translated turns, and the
system field populated only when the collected system text is non-empty. -/
def anthropicBuildParams (model : String) (messages : List Message) : AnthropicRequest :=
  let st := anthropicLoop ("", []) messages
  { model := model,
    maxTokens := 1024,
    system := if st.1 = "" then none else some st.1,
    messages := st.2 }

/-- `anthropicProvider`. -/
structure AnthropicProvider where
  model : String
  enabled : Bool
deriving DecidableEq, Repr

/-- `NewAnthropicProvider`: flag and `ANTHROPIC_API_KEY`. -/
def NewAnthropicProvider (env : String → String) (cfg : Config) : AnthropicProvider :=
  { model := cfg.providers.anthropic.defaultModel,
    enabled := cfg.providers.anthropic.enabled && (env "ANTHROPIC_API_KEY" != "") }

def AnthropicProvider.Name (_ : AnthropicProvider) : String := "anthropic"

def AnthropicProvider.IsEnabled (p : AnthropicProvider) : Bool := p.enabled

/-- `anthropicProvider.SendMessage`: disabled guard, translation, one network
call, then reply extraction concatenating every text block (zero blocks give
the empty reply with no error). -/
def anthropicSendMessage (p : AnthropicProvider)
    (net : AnthropicRequest → Except String AnthropicResponse)
    (messages : List Message) : Except String String :=
  if !p.enabled then Except.error "anthropic: provider not enabled"
  else
    match net (anthropicBuildParams p.model messages) with
    | Except.error e => Except.error ("anthropic: " ++ e)
    | Except.ok msg =>
      match msg.content with
      | [] => Except.ok ""
      | blocks => Except.ok (blocks.foldl (fun acc b => acc ++ b.text) "")

/-! ## Router (internal/llm/router.go) and factory (factory.go) -/

/-- `router` struct: an ordered provider slice plus the default index
(`-1` meaning unset).  Kept generic in the provider type, mirroring the Go
slice of `Provider` interface values; the interface's `IsEnabled` dispatch
becomes an explicit function argument of `getProvider`. -/
structure RouterState (P : Type) where
  providers : List P
  defaultIdx : Int
deriving DecidableEq, Repr

/-- The `for _, p := range r.providers` scan of `GetProvider`: first enabled
provider, else the sentinel error. -/
def scanFirst {P : Type} (isEnabled : P → Bool) : List P → Except String P
  | [] => Except.error "no LLM provider enabled"
  | p :: rest => if isEnabled p then Except.ok p else scanFirst isEnabled rest

/-- The provider sitting at the default index when that index is in range
(the `r.defaultIdx >= 0 && r.defaultIdx < len(r.providers)` guard). -/
def routerDefault {P : Type} (r : RouterState P) : Option P :=
  if 0 ≤ r.defaultIdx ∧ r.defaultIdx < (r.providers.length : Int) then
    r.providers[r.defaultIdx.toNat]?
  else none

/-- `router.GetProvider`: the in-range default if it reports enabled,
otherwise the declaration-order scan. -/
def getProvider {P : Type} (isEnabled : P → Bool) (r : RouterState P) : Except String P :=
  match routerDefault r with
  | some p => if isEnabled p then Except.ok p else scanFirst isEnabled r.providers
  | none => scanFirst isEnabled r.providers

/-- The closed set of provider variants the factory constructs
(the Go `Provider` interface values appended by `NewRouter`). -/
inductive ProviderImpl where
  | openai (p : OpenAIProvider)
  | anthropic (p : AnthropicProvider)
  | ollama (p : OllamaProvider)
  | openrouter (p : OpenRouterProvider)
  | opencode (p : OpenCodeProvider)
deriving DecidableEq, Repr

/-- Interface dispatch of `IsEnabled` over the variant set. -/
def ProviderImpl.isEnabled : ProviderImpl → Bool
  | .openai p => p.IsEnabled
  | .anthropic p => p.IsEnabled
  | .ollama p => p.IsEnabled
  | .openrouter p => p.IsEnabled
  | .opencode p => p.IsEnabled

/-- One `if cfg.Providers.X.Enabled { providers = append(...); if defaultIdx ==
-1 { defaultIdx = len(providers) - 1 } }` block of `NewRouter`. -/
def addEnabled (flag : Bool) (p : ProviderImpl)
    (acc : List ProviderImpl × Int) : List ProviderImpl × Int :=
  if flag then
    let ps := acc.1 ++ [p]
    (ps, if acc.2 = -1 then (ps.length : Int) - 1 else acc.2)
  else acc

/-- `NewRouter` (factory.go): visit the five backends in declaration order,
construct each whose configured flag is set, record the first position as the
default index, and fail with the sentinel when nothing was constructed. -/
def NewRouter (env : String → String) (cfg : Config) :
    Except String (RouterState ProviderImpl) :=
  let acc0 : List ProviderImpl × Int := ([], -1)
  let acc1 := addEnabled cfg.providers.openAI.enabled
    (ProviderImpl.openai (NewOpenAIProvider env cfg)) acc0
  let acc2 := addEnabled cfg.providers.anthropic.enabled
    (ProviderImpl.anthropic (NewAnthropicProvider env cfg)) acc1
  let acc3 := addEnabled cfg.providers.ollama.enabled
    (ProviderImpl.ollama (NewOllamaProvider cfg)) acc2
  let acc4 := addEnabled cfg.providers.openRouter.enabled
    (ProviderImpl.openrouter (NewOpenRouterProvider env cfg)) acc3
  let acc5 := addEnabled cfg.providers.openCode.enabled
    (ProviderImpl.opencode (NewOpenCodeProvider env cfg)) acc4
  if acc5.1.length = 0 then Except.error "no LLM provider enabled"
  else Except.ok { providers := acc5.1, defaultIdx := acc5.2 }

/-! ## Session store (internal/session/manager.go) -/

/-- The session directory: per-user file contents, keyed by the `int64`
user id (the deterministic `<id>.json` name), each file represented by the
message list it decodes to. -/
def SessionFS : Type := Int → Option (List Message)

/-- `manager` struct (the `sync.RWMutex` serialises the sequential calls
modelled here and carries no data). -/
structure SessionManager where
  path : String
  maxMessages : Int
deriving DecidableEq, Repr

/-- `NewManager`: empty path and zero max-message count are normalised to
their defaults; the directory creation is assumed to succeed. -/
def NewManager (path : String) (maxMessages : Int) : SessionManager :=
  { path := if path = "" then "./data/sessions" else path,
    maxMessages := if maxMessages = 0 then 50 else maxMessages }

/-- `manager.Get`: a missing file yields the empty sequence with no error;
a present file yields its decoded messages (a file written by `Save` always
decodes, so the parse-failure branch is unreachable in this model). -/
def managerGet (_ : SessionManager) (fs : SessionFS) (userID : Int) :
    Except String (List Message) :=
  match fs userID with
  | none => Except.ok []
  | some msgs => Except.ok msgs

/-- `manager.Save`: truncate to the trailing `maxMessages` elements when the
limit is positive and exceeded, then replace the per-user file wholesale. -/
def managerSave (mgr : SessionManager) (fs : SessionFS) (userID : Int)
    (messages : List Message) : SessionFS :=
  let kept :=
    if mgr.maxMessages > 0 ∧ (messages.length : Int) > mgr.maxMessages then
      messages.drop (messages.length - mgr.maxMessages.toNat)
    else messages
  fun u => if u = userID then some kept else fs u

/-- The one `os.Remove` failure the model can produce. -/
inductive FileError where
  | notExist
deriving DecidableEq, Repr

/-- `os.Remove` on the per-user file: absent file reports `notExist`. -/
def osRemove (fs : SessionFS) (userID : Int) : Except FileError SessionFS :=
  match fs userID with
  | none => Except.error FileError.notExist
  | some _ => Except.ok (fun u => if u = userID then none else fs u)

/-- `manager.Delete`: `os.Remove`, with `os.IsNotExist` mapped to success. -/
def managerDelete (_ : SessionManager) (fs : SessionFS) (userID : Int) :
    Except String SessionFS :=
  match osRemove fs userID with
  | Except.error FileError.notExist => Except.ok fs
  | Except.ok fs2 => Except.ok fs2

/-! ## Spec-side characterisations (refinement targets, from the spec text) -/

/-- Spec-side: the content of the last system-role message of the sequence,
`""` when there is none. -/
def specLastSystemContent (msgs : List Message) : String :=
  msgs.foldl (fun a m => if m.role = "system" then m.content else a) ""

/-- An error text contains a name: it splits as `a ++ name ++ b`. -/
def errTextContains (needle text : String) : Prop :=
  ∃ a b, text = a ++ needle ++ b

/-! ## Lemmas about the router scan -/

theorem scanFirst_eq_find {P : Type} (isEnabled : P → Bool) (l : List P) :
    scanFirst isEnabled l
      = match l.find? isEnabled with
        | some p => Except.ok p
        | none => Except.error "no LLM provider enabled" := by
  induction l with
  | nil => rfl
  | cons p rest ih =>
    by_cases h : isEnabled p = true
    · simp [scanFirst, h, List.find?_cons_of_pos]
    · simp only [Bool.not_eq_true] at h
      simp [scanFirst, h, List.find?_cons_of_neg, ih]

theorem routerDefault_mem {P : Type} (r : RouterState P) (p : P)
    (h : routerDefault r = some p) : p ∈ r.providers := by
  unfold routerDefault at h
  split at h
  · obtain ⟨hlt, rfl⟩ := List.getElem?_eq_some_iff.mp h
    exact List.getElem_mem hlt
  · exact absurd h (by simp)

/-! ## Lemmas about the anthropic translation loop -/

theorem anthropicLoop_snd (msgs : List Message) (s : String) (ts : List AnthropicTurn) :
    (anthropicLoop (s, ts) msgs).2
      = ts ++ (msgs.filter (fun m => m.role != "system")).map anthropicTurnOf := by
  induction msgs generalizing s ts with
  | nil => simp [anthropicLoop]
  | cons m rest ih =>
    by_cases h : m.role = "system"
    · simp [anthropicLoop, h, ih]
    · simp [anthropicLoop, h, ih]

theorem anthropicLoop_fst (msgs : List Message) (s : String) (ts : List AnthropicTurn) :
    (anthropicLoop (s, ts) msgs).1
      = msgs.foldl (fun a m => if m.role = "system" then m.content else a) s := by
  induction msgs generalizing s ts with
  | nil => simp [anthropicLoop]
  | cons m rest ih =>
    by_cases h : m.role = "system"
    · simp [anthropicLoop, h, ih]
    · simp [anthropicLoop, h, ih]

/-! ## Claim C1 -/

/-- Claim C1, as stated, is false: with two system-role messages
`"a"` and `"b"`, the system field of the request built by the Anthropic
translation holds `"b"` alone (each system message overwrites the collected
text), not the concatenation `"a" ++ "b"`. -/
theorem C1_counterexample :
    (anthropicBuildParams "claude"
        [{ role := "system", content := "a" }, { role := "system", content := "b" }]).system
      ≠ some ("a" ++ "b") := by
  decide

/-- Claim C1, amended: the Anthropic translation removes every system-role
message from the native turn list (the remaining messages become turns in
order), and the dedicated system field holds the content of the LAST
system-role message of the sequence — set only when that content is
non-empty — rather than the concatenation of all of them. -/
theorem C1_system_field_last_wins (model : String) (msgs : List Message) :
    (anthropicBuildParams model msgs).messages
      = (msgs.filter (fun m => m.role != "system")).map anthropicTurnOf
    ∧ (anthropicBuildParams model msgs).system
      = (if specLastSystemContent msgs = "" then none
         else some (specLastSystemContent msgs)) := by
  constructor
  · simp [anthropicBuildParams, anthropicLoop_snd]
  · simp [anthropicBuildParams, anthropicLoop_fst, specLastSystemContent]

/-! ## Claim C8 -/

/-- Claim C8: a message whose role is none of system, user, assistant is
translated to a native user-role turn by every variant — the shared
OpenAI-family per-message switch and the Anthropic per-message arm both
produce a user turn, and the full translations of any sequence containing
the message contain that user turn (never a rejection). -/
theorem C8_unknown_role_user (m : Message) (msgs : List Message) (model : String)
    (h1 : m.role ≠ "system") (h2 : m.role ≠ "user") (h3 : m.role ≠ "assistant")
    (hm : m ∈ msgs) :
    openAIFamilyTurnOf m = { role := "user", content := m.content }
    ∧ anthropicTurnOf m = { role := "user", content := m.content }
    ∧ ({ role := "user", content := m.content } : ChatTurn) ∈ openAIFamilyTranslate msgs
    ∧ ({ role := "user", content := m.content } : AnthropicTurn)
        ∈ (anthropicBuildParams model msgs).messages := by
  have hoa : openAIFamilyTurnOf m = { role := "user", content := m.content } := by
    simp [openAIFamilyTurnOf, h1, h2, h3]
  have han : anthropicTurnOf m = { role := "user", content := m.content } := by
    simp [anthropicTurnOf, h3]
  refine ⟨hoa, han, ?_, ?_⟩
  · exact hoa ▸ List.mem_map_of_mem openAIFamilyTurnOf hm
  · have hfst : (anthropicBuildParams model msgs).messages
        = (msgs.filter (fun x => x.role != "system")).map anthropicTurnOf := by
      simp [anthropicBuildParams, anthropicLoop_snd]
    rw [hfst]
    have hmem : m ∈ msgs.filter (fun x => x.role != "system") := by
      simp [List.mem_filter, hm, h1]
    exact han ▸ List.mem_map_of_mem anthropicTurnOf hmem

/-! ## Claim C2 -/

/-- Claim C2: for a store built by `NewManager` from a non-negative
configured limit, Save followed by Get returns the saved sequence unchanged
when its length is within `maxMessages`, and exactly the trailing
`maxMessages` elements (oldest dropped first, order preserved) when longer;
in either case the persisted sequence has length at most `maxMessages`. -/
theorem C2_save_get_roundtrip (path : String) (n : Int) (hn : 0 ≤ n)
    (fs : SessionFS) (u : Int) (M : List Message) :
    ((M.length : Int) ≤ (NewManager path n).maxMessages →
      managerGet (NewManager path n) (managerSave (NewManager path n) fs u M) u
        = Except.ok M)
    ∧ ((M.length : Int) > (NewManager path n).maxMessages →
      managerGet (NewManager path n) (managerSave (NewManager path n) fs u M) u
        = Except.ok (M.drop (M.length - (NewManager path n).maxMessages.toNat))
      ∧ (M.drop (M.length - (NewManager path n).maxMessages.toNat)).length
        = (NewManager path n).maxMessages.toNat)
    ∧ (∀ L, managerGet (NewManager path n) (managerSave (NewManager path n) fs u M) u
        = Except.ok L → (L.length : Int) ≤ (NewManager path n).maxMessages) := by
  have hkpos : 0 < (NewManager path n).maxMessages := by
    simp only [NewManager]
    split <;> omega
  have key : managerGet (NewManager path n) (managerSave (NewManager path n) fs u M) u
      = Except.ok (if (NewManager path n).maxMessages > 0
            ∧ (M.length : Int) > (NewManager path n).maxMessages
          then M.drop (M.length - (NewManager path n).maxMessages.toNat) else M) := by
    simp [managerGet, managerSave]
  refine ⟨?_, ?_, ?_⟩
  · intro h
    rw [key, if_neg]
    rintro ⟨-, h2⟩
    omega
  · intro h
    refine ⟨?_, ?_⟩
    · rw [key, if_pos ⟨hkpos, h⟩]
    · rw [List.length_drop]
      omega
  · intro L hL
    rw [key] at hL
    have hL2 : (if (NewManager path n).maxMessages > 0
          ∧ (M.length : Int) > (NewManager path n).maxMessages
        then M.drop (M.length - (NewManager path n).maxMessages.toNat) else M) = L := by
      simpa using hL
    rw [← hL2]
    by_cases hc : (NewManager path n).maxMessages > 0
        ∧ (M.length : Int) > (NewManager path n).maxMessages
    · rw [if_pos hc, List.length_drop]
      omega
    · rw [if_neg hc]
      rcases not_and_or.mp hc with h1 | h2
      · omega
      · omega

/-- Witness for C2: the spec's concrete scenario — limit 3, five messages
saved, Get returns the last three. -/
theorem C2_roundtrip_witness :
    managerGet (NewManager "" 3) (managerSave (NewManager "" 3) (fun _ => none) 7
        [{ role := "user", content := "m1" }, { role := "user", content := "m2" },
         { role := "user", content := "m3" }, { role := "user", content := "m4" },
         { role := "user", content := "m5" }]) 7
      = Except.ok [{ role := "user", content := "m3" },
         { role := "user", content := "m4" }, { role := "user", content := "m5" }] := by
  have h := (C2_save_get_roundtrip "" 3 (by decide) (fun _ => none) 7
    [{ role := "user", content := "m1" }, { role := "user", content := "m2" },
     { role := "user", content := "m3" }, { role := "user", content := "m4" },
     { role := "user", content := "m5" }]).2.1 (by decide)
  exact h.1.trans (congrArg Except.ok (by decide))

/-! ## Claim C9 -/

/-- Claim C9: deleting an absent per-user session file succeeds (the
`os.IsNotExist` branch maps to no error), and two consecutive Delete calls
for the same user both succeed from any starting state. -/
theorem C9_delete_idempotent (mgr : SessionManager) (fs : SessionFS) (u : Int) :
    (fs u = none → managerDelete mgr fs u = Except.ok fs)
    ∧ ∃ fs1, managerDelete mgr fs u = Except.ok fs1
        ∧ ∃ fs2, managerDelete mgr fs1 u = Except.ok fs2 := by
  constructor
  · intro h
    simp [managerDelete, osRemove, h]
  · cases hfu : fs u with
    | none =>
      exact ⟨fs, by simp [managerDelete, osRemove, hfu],
        fs, by simp [managerDelete, osRemove, hfu]⟩
    | some msgs =>
      refine ⟨fun v => if v = u then none else fs v,
        by simp [managerDelete, osRemove, hfu], ?_⟩
      exact ⟨fun v => if v = u then none else fs v,
        by simp [managerDelete, osRemove]⟩

/-- Witness for C9: deleting a never-created session returns no error. -/
theorem C9_delete_witness :
    managerDelete (NewManager "" 0) (fun _ => none) 7 = Except.ok (fun _ => none) :=
  (C9_delete_idempotent (NewManager "" 0) (fun _ => none) 7).1 rfl

/-! ## Claim C10 -/

/-- Claim C10: `NewManager` normalises only an exactly-zero limit to the
default 50 (any non-zero limit is kept as given), and with a strictly
negative limit Save never truncates — the full sequence is persisted and
read back, so the length bound fails for negative limits. -/
theorem C10_negative_limit_no_truncation (path : String) (n m : Int)
    (fs : SessionFS) (u : Int) (M : List Message)
    (hm : m ≠ 0) (hneg : n < 0) :
    (NewManager path 0).maxMessages = 50
    ∧ (NewManager path m).maxMessages = m
    ∧ managerSave (NewManager path n) fs u M u = some M
    ∧ managerGet (NewManager path n) (managerSave (NewManager path n) fs u M) u
        = Except.ok M := by
  have hmaxn : (NewManager path n).maxMessages = n := by
    simp only [NewManager]
    rw [if_neg (by omega)]
  have hcond : ¬((NewManager path n).maxMessages > 0
      ∧ (M.length : Int) > (NewManager path n).maxMessages) := by
    rintro ⟨h1, -⟩
    rw [hmaxn] at h1
    omega
  refine ⟨by simp [NewManager], by simp [NewManager, hm], ?_, ?_⟩
  · simp [managerSave, hcond]
  · simp [managerGet, managerSave, hcond]

/-- Witness for C10: limit `-1`, two messages — both persisted untruncated. -/
theorem C10_negative_limit_witness :
    (NewManager "" 0).maxMessages = 50
    ∧ (NewManager "" 7).maxMessages = 7
    ∧ managerSave (NewManager "" (-1)) (fun _ => none) 3
        [{ role := "user", content := "m1" }, { role := "user", content := "m2" }] 3
      = some [{ role := "user", content := "m1" }, { role := "user", content := "m2" }] := by
  have h := C10_negative_limit_no_truncation "" (-1) 7 (fun _ => none) 3
    [{ role := "user", content := "m1" }, { role := "user", content := "m2" }]
    (by decide) (by decide)
  exact ⟨h.1, h.2.1, h.2.2.1⟩

/-- Witness for C8 at the concrete unrecognized role `"tool"`. -/
theorem C8_unknown_role_witness :
    openAIFamilyTurnOf { role := "tool", content := "x" }
      = { role := "user", content := "x" }
    ∧ anthropicTurnOf { role := "tool", content := "x" }
      = { role := "user", content := "x" } := by
  have h := C8_unknown_role_user { role := "tool", content := "x" }
    [{ role := "tool", content := "x" }] "claude"
    (by decide) (by decide) (by decide) (by simp)
  exact ⟨h.1, h.2.1⟩

/-! ## Claim C3 -/

/-- Claim C3: for every router state, `GetProvider` returns the provider at
the default index when that index is in range and the provider reports
enabled; otherwise it returns the first enabled provider in declaration
order (`List.find?`); and when no held provider is enabled it returns the
sentinel "no LLM provider enabled" error. -/
theorem C3_getProvider_selection {P : Type} (isEnabled : P → Bool) (r : RouterState P) :
    (∀ p, routerDefault r = some p → isEnabled p = true →
      getProvider isEnabled r = Except.ok p)
    ∧ ((∀ p, routerDefault r = some p → isEnabled p = false) →
      getProvider isEnabled r
        = match r.providers.find? isEnabled with
          | some q => Except.ok q
          | none => Except.error "no LLM provider enabled")
    ∧ ((∀ p ∈ r.providers, isEnabled p = false) →
      getProvider isEnabled r = Except.error "no LLM provider enabled") := by
  refine ⟨?_, ?_, ?_⟩
  · intro p hdef hen
    simp [getProvider, hdef, hen]
  · intro hdis
    cases hdef : routerDefault r with
    | none => simp [getProvider, hdef, scanFirst_eq_find]
    | some p =>
      have hp := hdis p hdef
      simp [getProvider, hdef, hp, scanFirst_eq_find]
  · intro hnone
    have hfind : r.providers.find? isEnabled = none := by
      rw [List.find?_eq_none]
      intro x hx
      simp [hnone x hx]
    cases hdef : routerDefault r with
    | none => simp [getProvider, hdef, scanFirst_eq_find, hfind]
    | some p =>
      have hp := hnone p (routerDefault_mem r p hdef)
      simp [getProvider, hdef, hp, scanFirst_eq_find, hfind]

/-- Witness for C3: default index unset (`-1`), the first enabled provider
in declaration order is returned. -/
theorem C3_getProvider_witness :
    getProvider ProviderImpl.isEnabled
      (RouterState.mk [ProviderImpl.ollama (OllamaProvider.mk "a" "u" false),
        ProviderImpl.ollama (OllamaProvider.mk "b" "u" true)] (-1))
      = Except.ok (ProviderImpl.ollama (OllamaProvider.mk "b" "u" true)) := by
  have hd : routerDefault
      (RouterState.mk [ProviderImpl.ollama (OllamaProvider.mk "a" "u" false),
        ProviderImpl.ollama (OllamaProvider.mk "b" "u" true)] (-1)) = none := by decide
  have h := (C3_getProvider_selection ProviderImpl.isEnabled
    (RouterState.mk [ProviderImpl.ollama (OllamaProvider.mk "a" "u" false),
      ProviderImpl.ollama (OllamaProvider.mk "b" "u" true)] (-1))).2.1
    (by
      intro p hp
      rw [hd] at hp
      exact absurd hp (by simp))
  exact h.trans rfl

/-! ## Claim C4 -/

/-- Claim C4: `NewRouter` fails with the sentinel "no LLM provider enabled"
exactly when all five configured enabled flags are false (zero providers
constructed); a successfully returned router holds at least one provider and
its default index is 0 — the position of the first constructed provider —
so with exactly one enabled backend that backend is the default. -/
theorem C4_newRouter_construction (env : String → String) (cfg : Config) :
    (NewRouter env cfg = Except.error "no LLM provider enabled" ↔
      cfg.providers.openAI.enabled = false ∧ cfg.providers.anthropic.enabled = false
      ∧ cfg.providers.ollama.enabled = false ∧ cfg.providers.openRouter.enabled = false
      ∧ cfg.providers.openCode.enabled = false)
    ∧ (∀ r, NewRouter env cfg = Except.ok r →
        r.providers ≠ [] ∧ r.defaultIdx = 0) := by
  obtain ⟨⟨⟨e1, m1⟩, ⟨e2, m2⟩, ⟨e3, m3⟩, ⟨e4, m4⟩, ⟨e5, m5⟩⟩⟩ := cfg
  cases e1 <;> cases e2 <;> cases e3 <;> cases e4 <;> cases e5 <;>
    simp [NewRouter, addEnabled]

/-- Witness for C4: every backend disabled in configuration — construction
fails with the sentinel error. -/
theorem C4_newRouter_witness :
    NewRouter (fun _ => "")
      { providers :=
        { openAI := { enabled := false, defaultModel := "" },
          anthropic := { enabled := false, defaultModel := "" },
          ollama := { enabled := false, defaultModel := "" },
          openRouter := { enabled := false, defaultModel := "" },
          openCode := { enabled := false, defaultModel := "" } } }
      = Except.error "no LLM provider enabled" :=
  (C4_newRouter_construction (fun _ => "") _).1.mpr ⟨rfl, rfl, rfl, rfl, rfl⟩

/-! ## Claim C5 -/

/-- Claim C5: every credentialed variant reports enabled exactly when its
configured flag is set AND its API-key environment variable is non-empty
(so a false flag, or a true flag with an empty credential, reads as
disabled); the Ollama local variant needs no credential and reports
enabled exactly when its flag is set. -/
theorem C5_isEnabled_credential_gate (env : String → String) (cfg : Config) :
    ((NewOpenAIProvider env cfg).IsEnabled = true ↔
      cfg.providers.openAI.enabled = true ∧ env "OPENAI_API_KEY" ≠ "")
    ∧ ((NewAnthropicProvider env cfg).IsEnabled = true ↔
      cfg.providers.anthropic.enabled = true ∧ env "ANTHROPIC_API_KEY" ≠ "")
    ∧ ((NewOpenRouterProvider env cfg).IsEnabled = true ↔
      cfg.providers.openRouter.enabled = true ∧ env "OPENROUTER_API_KEY" ≠ "")
    ∧ ((NewOpenCodeProvider env cfg).IsEnabled = true ↔
      cfg.providers.openCode.enabled = true ∧ env "OPENCODE_API_KEY" ≠ "")
    ∧ (NewOllamaProvider cfg).IsEnabled = cfg.providers.ollama.enabled := by
  refine ⟨?_, ?_, ?_, ?_, rfl⟩ <;>
    simp [NewOpenAIProvider, NewAnthropicProvider, NewOpenRouterProvider,
      NewOpenCodeProvider, OpenAIProvider.IsEnabled, AnthropicProvider.IsEnabled,
      OpenRouterProvider.IsEnabled, OpenCodeProvider.IsEnabled,
      Bool.and_eq_true, bne_iff_ne]

/-! ## Claim C6 -/

/-- Claim C6: on a disabled provider, every variant's `SendMessage` returns
the disabled-provider error — whose text contains the provider's `Name()` —
and the result does not depend on the network oracle at all (no network
call is reached). -/
theorem C6_disabled_no_network
    (p1 : OpenAIProvider) (p2 : AnthropicProvider) (p3 : OllamaProvider)
    (p4 : OpenRouterProvider) (p5 : OpenCodeProvider)
    (net net2 : ChatRequest → Except String ChatResponse)
    (anet anet2 : AnthropicRequest → Except String AnthropicResponse)
    (msgs : List Message)
    (h1 : p1.IsEnabled = false) (h2 : p2.IsEnabled = false) (h3 : p3.IsEnabled = false)
    (h4 : p4.IsEnabled = false) (h5 : p5.IsEnabled = false) :
    (openAISendMessage p1 net msgs = Except.error ("openai" ++ ": provider not enabled")
      ∧ errTextContains p1.Name ("openai" ++ ": provider not enabled")
      ∧ openAISendMessage p1 net msgs = openAISendMessage p1 net2 msgs)
    ∧ (anthropicSendMessage p2 anet msgs = Except.error "anthropic: provider not enabled"
      ∧ errTextContains p2.Name "anthropic: provider not enabled"
      ∧ anthropicSendMessage p2 anet msgs = anthropicSendMessage p2 anet2 msgs)
    ∧ (ollamaSendMessage p3 net msgs = Except.error ("ollama" ++ ": provider not enabled")
      ∧ errTextContains p3.Name ("ollama" ++ ": provider not enabled")
      ∧ ollamaSendMessage p3 net msgs = ollamaSendMessage p3 net2 msgs)
    ∧ (openRouterSendMessage p4 net msgs
        = Except.error ("openrouter" ++ ": provider not enabled")
      ∧ errTextContains p4.Name ("openrouter" ++ ": provider not enabled")
      ∧ openRouterSendMessage p4 net msgs = openRouterSendMessage p4 net2 msgs)
    ∧ (openCodeSendMessage p5 net msgs = Except.error ("opencode" ++ ": provider not enabled")
      ∧ errTextContains p5.Name ("opencode" ++ ": provider not enabled")
      ∧ openCodeSendMessage p5 net msgs = openCodeSendMessage p5 net2 msgs) := by
  simp only [OpenAIProvider.IsEnabled] at h1
  simp only [AnthropicProvider.IsEnabled] at h2
  simp only [OllamaProvider.IsEnabled] at h3
  simp only [OpenRouterProvider.IsEnabled] at h4
  simp only [OpenCodeProvider.IsEnabled] at h5
  refine ⟨⟨?_, ⟨"", ": provider not enabled", rfl⟩, ?_⟩,
    ⟨?_, ⟨"", ": provider not enabled", rfl⟩, ?_⟩,
    ⟨?_, ⟨"", ": provider not enabled", rfl⟩, ?_⟩,
    ⟨?_, ⟨"", ": provider not enabled", rfl⟩, ?_⟩,
    ⟨?_, ⟨"", ": provider not enabled", rfl⟩, ?_⟩⟩ <;>
  simp [openAISendMessage, anthropicSendMessage, ollamaSendMessage,
    openRouterSendMessage, openCodeSendMessage, openAIFamilySendMessage,
    h1, h2, h3, h4, h5]

/-- Witness for C6: a concretely disabled openai-style provider returns
the disabled error under an arbitrary network oracle. -/
theorem C6_disabled_witness :
    openAISendMessage { model := "m", enabled := false }
      (fun _ => Except.error "net") [] = Except.error ("openai" ++ ": provider not enabled") :=
  (C6_disabled_no_network { model := "m", enabled := false }
    { model := "m", enabled := false } { model := "m", baseURL := "u", enabled := false }
    { model := "m", enabled := false } { model := "m", enabled := false }
    (fun _ => Except.error "net") (fun _ => Except.error "net2")
    (fun _ => Except.error "anet") (fun _ => Except.error "anet2") []
    rfl rfl rfl rfl rfl).1.1

/-! ## Claim C7 -/

/-- Claim C7: when the backend answers every request with a response holding
zero choices, each OpenAI-compatible-family variant's `SendMessage` on an
enabled provider returns the empty reply text with no error. -/
theorem C7_zero_choices_ok_empty
    (p1 : OpenAIProvider) (p3 : OllamaProvider) (p4 : OpenRouterProvider)
    (p5 : OpenCodeProvider)
    (net : ChatRequest → Except String ChatResponse) (resp : ChatResponse)
    (msgs : List Message)
    (hresp : resp.choices = [])
    (hnet : ∀ req, net req = Except.ok resp)
    (h1 : p1.IsEnabled = true) (h3 : p3.IsEnabled = true)
    (h4 : p4.IsEnabled = true) (h5 : p5.IsEnabled = true) :
    openAISendMessage p1 net msgs = Except.ok ""
    ∧ ollamaSendMessage p3 net msgs = Except.ok ""
    ∧ openRouterSendMessage p4 net msgs = Except.ok ""
    ∧ openCodeSendMessage p5 net msgs = Except.ok "" := by
  simp only [OpenAIProvider.IsEnabled] at h1
  simp only [OllamaProvider.IsEnabled] at h3
  simp only [OpenRouterProvider.IsEnabled] at h4
  simp only [OpenCodeProvider.IsEnabled] at h5
  refine ⟨?_, ?_, ?_, ?_⟩ <;>
    simp [openAISendMessage, ollamaSendMessage, openRouterSendMessage,
      openCodeSendMessage, openAIFamilySendMessage, h1, h3, h4, h5, hnet, hresp]

/-- Witness for C7: a zero-choice response yields the empty reply with no
error on an enabled provider. -/
theorem C7_zero_choices_witness :
    openAISendMessage { model := "m", enabled := true }
      (fun _ => Except.ok { choices := [] }) [] = Except.ok "" :=
  (C7_zero_choices_ok_empty { model := "m", enabled := true }
    { model := "m", baseURL := "u", enabled := true } { model := "m", enabled := true }
    { model := "m", enabled := true }
    (fun _ => Except.ok { choices := [] }) { choices := [] } []
    rfl (fun _ => rfl) rfl rfl rfl rfl).1

end Helpi
